import Mathlib

/-!
Verification development for the Report-Admin Tool Server (`echo.py`).

The module is a shallow embedding of the Python source: each tool function
becomes a Lean function over an explicit database state, returning the
rendered message, the trace of database actions performed on the connection
(connect / statement / insert / update / commit / close), and the resulting
database state.  The external SQL engine is modelled by the state's row
lists plus oracle functions for the two read-only query families the tools
issue (information-schema lookups and the raw test query).  Driver-level
exceptions raised by the network or the database engine are outside the
embedding; the control flow modelled here is the code's own, including the
`ValueError` raised by `get_db_connection` for an unknown key, which every
tool's blanket `except Exception` handler converts to an error string.

Python-specific behaviours are modelled explicitly: `str.upper` and
`str.replace` act per character / by textual scan (exact on the ASCII data
relevant here), `x in s` is substring containment, `dict.update` overwrites
existing keys in insertion order, f-string interpolation of `None` prints
`None`, and `x or "N/A"` maps falsy values (`None`, `0`, `""`) to `"N/A"`.
-/

namespace EchoSpec

/-- Python `needle in haystack` prefix test on character lists. -/
def isPref : List Char → List Char → Bool
  | [], _ => true
  | _ :: _, [] => false
  | a :: as, b :: bs => a == b && isPref as bs

/-- Python `needle in haystack` substring containment on character lists. -/
def containsL (n : List Char) : List Char → Bool
  | [] => n.isEmpty
  | c :: rest => isPref n (c :: rest) || containsL n rest

/-- Python `needle in haystack` on strings. -/
def pyContains (n h : String) : Bool := containsL n.data h.data

/-- Python `str.upper`, modelled per character (exact for ASCII data). -/
def pyUpper (s : String) : String := ⟨s.data.map Char.toUpper⟩

/-- Python `str.replace`: left-to-right, non-overlapping scan.  The fuel
argument (instantiated with the haystack length, an upper bound on the
number of scan steps) makes the recursion structural. -/
def pyReplaceGo (n r : List Char) : Nat → List Char → List Char
  | _, [] => []
  | 0, h => h
  | fuel + 1, c :: rest =>
    if isPref n (c :: rest) ∧ n ≠ [] then
      r ++ pyReplaceGo n r fuel (rest.drop (n.length - 1))
    else
      c :: pyReplaceGo n r fuel rest

/-- Python `s.replace(n, r)` for a nonempty needle. -/
def pyReplace (s n r : String) : String :=
  ⟨pyReplaceGo n.data r.data s.data.length s.data⟩

/-- Python f-string rendering of an optional string (`None` prints "None"). -/
def pyStr : Option String → String
  | none => "None"
  | some s => s

/-- Python f-string rendering of an optional integer. -/
def pyStrInt : Option Int → String
  | none => "None"
  | some n => toString n

/-- Python `x or "N/A"` for an optional string (empty string is falsy). -/
def orNAStr : Option String → String
  | none => "N/A"
  | some "" => "N/A"
  | some v => v

/-- Python `x or "N/A"` for an optional integer (zero is falsy). -/
def orNAInt : Option Int → String
  | none => "N/A"
  | some 0 => "N/A"
  | some v => toString v

/-- Environment variables read by `load_dotenv` / `os.getenv` at startup. -/
structure Env where
  devServer : Option String
  devDatabase : Option String
  devUsername : Option String
  devPassword : Option String

/-- One entry of `DB_CONFIGS`. -/
structure DbConfig where
  server : Option String
  database : Option String
  username : Option String
  password : Option String
  driver : String

/-- The `"default"` entry of `DB_CONFIGS`. -/
def defaultConfig (e : Env) : DbConfig :=
  ⟨e.devServer, e.devDatabase, e.devUsername, e.devPassword,
   "\x7bODBC Driver 17 for SQL Server\x7d"⟩

/-- The `"INTEGRACION_CW_20_DEV"` entry of `DB_CONFIGS`. -/
def integracionConfig (e : Env) : DbConfig :=
  ⟨e.devServer, some "INTEGRACION_CW_20_DEV", e.devUsername, e.devPassword,
   "\x7bODBC Driver 17 for SQL Server\x7d"⟩

/-- The static registry `DB_CONFIGS`, in source order. -/
def dbConfigs (e : Env) : List (String × DbConfig) :=
  [("default", defaultConfig e), ("INTEGRACION_CW_20_DEV", integracionConfig e)]

/-- Python `database_key in DB_CONFIGS` / `DB_CONFIGS[database_key]`. -/
def lookupConfig (e : Env) (k : String) : Option DbConfig :=
  (dbConfigs e).lookup k

/-- The connection string assembled by `get_db_connection`. -/
def mkConnString (c : DbConfig) : String :=
  "DRIVER=" ++ c.driver ++ ";SERVER=" ++ pyStr c.server ++ ";DATABASE=" ++
    pyStr c.database ++ ";UID=" ++ pyStr c.username ++ ";PWD=" ++ pyStr c.password

/-- `get_db_connection`: `ValueError` for an unknown key (modelled as
`Except.error` carrying `str(e)`), otherwise the connection string handed to
`pyodbc.connect`; the connect attempt happens only in the `ok` case. -/
def getDbConnection (e : Env) (k : String) : Except String String :=
  match lookupConfig e k with
  | none => .error ("Base de datos '" ++ k ++ "' no configurada")
  | some c => .ok (mkConnString c)

/-- `DB_CONFIGS[k]["database"]` as rendered inside f-strings, for known keys. -/
def dbNameOfKey (e : Env) (k : String) : String :=
  match lookupConfig e k with
  | some c => pyStr c.database
  | none => ""

/-- A row of `default_roles` (the columns this system touches). -/
structure RoleRow where
  businessUnit : String
  code : String
  description : String
  applicationType : String
deriving DecidableEq

/-- A row of `assigned_reports`. -/
structure AssignRow where
  role : String
  reportPfx : String
  businessUnit : String
  applicationType : Option String
  order : Option Int
  customTag : Option String
  salesOffice : Option String
  centerLogistical : Option String
deriving DecidableEq

/-- A row of `INFORMATION_SCHEMA.COLUMNS` as selected by the tools. -/
structure InfoCol where
  columnName : String
  dataType : String
  maxLength : Option Int
  isNullable : String
deriving DecidableEq

/-- The database state visible to the tools: the two tables this system
writes, plus oracles for the read-only queries delegated to the engine
(information-schema contents per database key, and the raw test query
returning column names and stringified rows). -/
structure DbState where
  defaultRoles : List RoleRow
  assignedReports : List AssignRow
  infoColumns : String → String → List InfoCol
  rawQuery : String → List String × List (List String)

/-- Database actions a tool performs on its connection, in order. -/
inductive Event where
  | connect (cs : String)
  | queryRoles (bu pat : String)
  | queryCountAssigned (bu pfx role : String)
  | queryCountAssignedIn (bu pfx : String) (roles : List String)
  | queryCurrentAssign (bu pfx role : String)
  | queryRolesInfoIn (bu pfx : String) (roles : List String)
  | queryInfoCols (key tbl : String)
  | execSP (pfx : String) (params : List (String × String))
  | execRaw (sql : String)
  | insertAssign (row : AssignRow)
  | updateAssign (bu pfx : String) (roles fields : List String)
  | commit
  | close
deriving DecidableEq

/-- Result of one tool invocation: rendered message, connection trace,
resulting database state. -/
structure Res where
  msg : String
  trace : List Event
  state : DbState

/-- SQL Server `LIKE '%pat%'` on the default case-insensitive collation,
for wildcard-free needles: case-insensitive substring containment. -/
def likeContains (desc pat : String) : Bool :=
  containsL (pyUpper pat).data (pyUpper desc).data

/-- The role-resolution query shared by the assignment tools: roles of the
business unit whose description matches the pattern, excluding `sys_admin`. -/
def resolveRoles (s : DbState) (bu desc : String) : List RoleRow :=
  s.defaultRoles.filter fun r =>
    r.businessUnit == bu && likeContains r.description desc &&
      r.applicationType != "sys_admin"

/-- The `WHERE` key of the duplicate check on `assigned_reports`. -/
def matchesKey (bu pfx role : String) (a : AssignRow) : Bool :=
  a.businessUnit == bu && a.reportPfx == pfx && a.role == role

/-- `SELECT COUNT(*) FROM assigned_reports WHERE business_unit = ? AND
report_prefix = ? AND [role] = ?`. -/
def countAssigned (s : DbState) (bu pfx role : String) : Nat :=
  (s.assignedReports.filter (matchesKey bu pfx role)).length

/-- The same count with `[role] IN (...)`. -/
def countAssignedIn (s : DbState) (bu pfx : String) (codes : List String) : Nat :=
  (s.assignedReports.filter fun a =>
    a.businessUnit == bu && a.reportPfx == pfx && codes.contains a.role).length

/-- One formatted column line of `get_table_structure`. -/
def colLine (c : InfoCol) : String :=
  let lengthInfo :=
    match c.maxLength with
    | some n => if n ≠ 0 then "(" ++ toString n ++ ")" else ""
    | none => ""
  let nullInfo := if c.isNullable == "YES" then "NULL" else "NOT NULL"
  "  • " ++ c.columnName ++ ": " ++ c.dataType ++ lengthInfo ++ " - " ++ nullInfo ++ "\n"

/-- The success message of `get_table_structure`. -/
def renderTableStructure (tbl db : String) (cols : List InfoCol) : String :=
  "📋 Estructura de la tabla: " ++ tbl ++ "\n" ++ "🗄️ Base de datos: " ++ db ++
    "\n\n" ++ String.join (cols.map colLine)

/-- `get_table_structure`: resolve the connection (a `ValueError` for an
unknown key is caught by the handler and rendered), query the column rows,
and either report not-found (returning with the connection still open) or
render the structure and close. -/
def getTableStructure (e : Env) (s : DbState) (tbl key : String) : Res :=
  match lookupConfig e key with
  | none =>
    { msg := "❌ Error al obtener estructura: " ++
        "Base de datos '" ++ key ++ "' no configurada",
      trace := [], state := s }
  | some c =>
    let cs := mkConnString c
    let cols := s.infoColumns key tbl
    if cols.isEmpty then
      { msg := "⚠️ No se encontró la tabla '" ++ tbl ++ "' en la base de datos '" ++
          pyStr c.database ++ "'",
        trace := [.connect cs, .queryInfoCols key tbl], state := s }
    else
      { msg := renderTableStructure tbl (pyStr c.database) cols,
        trace := [.connect cs, .queryInfoCols key tbl, .close], state := s }

/-- One row line of the `test_query` sample (`" | ".join(str(val) ...)`). -/
def rowLine (r : List String) : String := String.intercalate " | " r ++ "\n"

/-- `"-" * 80`. -/
def dashLine : String := String.mk (List.replicate 80 '-')

/-- The success message of `test_query` for a nonempty result. -/
def testSuccessMsg (db : String) (cols : List String) (shown : List (List String))
    (total : Nat) : String :=
  "✅ Query ejecutada correctamente en " ++ db ++ ". Primeras 5 filas:" ++
    String.intercalate " | " cols ++ "\n" ++ dashLine ++ "\n" ++
    String.join (shown.map rowLine) ++ "\n📊 Total de registros: " ++ toString total

/-- `test_query`: reject queries lacking `@business_unit`; otherwise replace
the placeholder textually by the quoted business unit and execute the result
directly (no parameter binding). Returns the first five rows plus the total
count; the empty-result early return leaves the connection open. -/
def testQuery (e : Env) (s : DbState) (q bu key : String) : Res :=
  if !(pyContains "@business_unit" q) then
    { msg := "⚠️ La query debe incluir el parámetro @business_unit",
      trace := [], state := s }
  else
    match lookupConfig e key with
    | none =>
      { msg := "❌ Error al probar query: " ++
          "Base de datos '" ++ key ++ "' no configurada",
        trace := [], state := s }
    | some c =>
      let cs := mkConnString c
      let tq := pyReplace q "@business_unit" ("'" ++ bu ++ "'")
      let cols := (s.rawQuery tq).1
      let rows := (s.rawQuery tq).2
      if rows.isEmpty then
        { msg := "✅ Query ejecutada correctamente en " ++ pyStr c.database ++
            " pero no retornó resultados",
          trace := [.connect cs, .execRaw tq], state := s }
      else
        { msg := testSuccessMsg (pyStr c.database) cols (rows.take 5) rows.length,
          trace := [.connect cs, .execRaw tq, .close], state := s }

/-- One fold step of Python `dict.update`: overwrite in place if the key is
present, else append (dicts preserve insertion order). -/
def dictStep (acc : List (String × String)) (kv : String × String) :
    List (String × String) :=
  if acc.any (fun p => p.1 == kv.1) then
    acc.map fun p => if p.1 == kv.1 then (p.1, kv.2) else p
  else
    acc ++ [kv]

/-- Python `base.update(upd)` on insertion-ordered association lists. -/
def dictUpdate (base upd : List (String × String)) : List (String × String) :=
  upd.foldl dictStep base

/-- Python dictionary access `d[k]` on the association-list model (`none`
for a missing key). -/
def keyVal (k : String) : List (String × String) → Option String
  | [] => none
  | p :: ps => if p.1 == k then some p.2 else keyVal k ps

/-- `params_config`: the base map `\x7b"business_unit": "NVARCHAR(20)"\x7d`
updated with the caller's `additional_params` when that is truthy. -/
def paramsConfig (ap : Option (List (String × String))) : List (String × String) :=
  let base := [("business_unit", "NVARCHAR(20)")]
  match ap with
  | none => base
  | some l => if l.isEmpty then base else dictUpdate base l

/-- `json.dumps` on a string-to-string map whose keys and values need no
escaping (as with the parameter-type maps built here). -/
def jsonDumps (l : List (String × String)) : String :=
  "\x7b" ++
    String.intercalate ", "
      (l.map fun p => "\"" ++ p.1 ++ "\": \"" ++ p.2 ++ "\"") ++
    "\x7d"

/-- The automatic database attribution of `create_report` /
`bulk_create_reports` when `database_key` is unspecified: the secondary
database exactly when the upper-cased query text contains its name. -/
def inferDbKey (q : String) : String :=
  if pyContains "INTEGRACION_CW_20_DEV" (pyUpper q) then "INTEGRACION_CW_20_DEV"
  else "default"

/-- Arguments of `create_report`, with the source's defaults. -/
structure CreateReportArgs where
  reportPfx : String
  descEn : String
  descEs : String
  query : String
  additionalParams : Option (List (String × String)) := none
  isDetail : Int := 0
  hasDetail : Option Int := none
  actionColumn : Option String := none
  detailPfx : Option String := none
  detailMode : Option String := none
  openAnotherTab : Option Int := none
  typeResource : String := "table"
  columnsToRender : Option String := none
  defaultForAll : Int := 0
  databaseKey : Option String := none

/-- The success message of `create_report`. -/
def createReportMsg (a : CreateReportArgs) (paramsJson qdb spdb : String) : String :=
  "✅ Reporte creado exitosamente!\n\n📄 Detalles del reporte:\n  • Prefijo: " ++
    a.reportPfx ++ "\n  • Descripción (EN): " ++ a.descEn ++
    "\n  • Descripción (ES): " ++ a.descEs ++ "\n  • Parámetros: " ++ paramsJson ++
    "\n  • Tipo de recurso: " ++ a.typeResource ++ "\n  • Query apunta a: " ++ qdb ++
    "\n  • SP ejecutado en: " ++ spdb ++ "\n"

/-- `create_report`: validate the `@business_unit` placeholder before any
database call, infer the query's database when unspecified, build the
parameter map, and invoke `sp_ecosystem_create_columns_config` on the
default-database connection.  An explicit unknown `database_key` only fails
while rendering the success message (a `KeyError` caught by the handler),
after the procedure has already been executed and committed. -/
def createReport (e : Env) (s : DbState) (a : CreateReportArgs) : Res :=
  if !(pyContains "@business_unit" a.query) then
    { msg := "⚠️ La query debe incluir el parámetro @business_unit",
      trace := [], state := s }
  else
    let qk := match a.databaseKey with
      | none => inferDbKey a.query
      | some k => k
    let pc := paramsConfig a.additionalParams
    let cs := mkConnString (defaultConfig e)
    let t := [Event.connect cs, Event.execSP a.reportPfx pc, Event.commit,
      Event.close]
    match lookupConfig e qk with
    | some c =>
      { msg := createReportMsg a (jsonDumps pc) (pyStr c.database)
          (pyStr e.devDatabase),
        trace := t, state := s }
    | none =>
      { msg := "❌ Error al crear el reporte: '" ++ qk ++ "'",
        trace := t, state := s }

/-- One item of `bulk_create_reports`: a dictionary whose keys may be absent
(absence is what the required-field validation checks). -/
structure ReportItem where
  reportPfx : Option String := none
  descEn : Option String := none
  descEs : Option String := none
  query : Option String := none
  additionalParams : Option (List (String × String)) := none
  isDetail : Option Int := none
  hasDetail : Option Int := none
  actionColumn : Option String := none
  detailPfx : Option String := none
  detailMode : Option String := none
  openAnotherTab : Option Int := none
  typeResource : Option String := none
  columnsToRender : Option String := none
  defaultForAll : Option Int := none
  databaseKey : Option String := none

/-- The missing entries among the four required fields, in source order. -/
def missingFields (it : ReportItem) : List String :=
  (([("report_prefix", it.reportPfx.isSome),
     ("report_description_en", it.descEn.isSome),
     ("report_description_es", it.descEs.isSome),
     ("query", it.query.isSome)].filter fun p => !p.2).map fun p => p.1)

/-- An item reaches the stored-procedure call exactly when its required
fields are present and its query contains `@business_unit`. -/
def itemExecutes (it : ReportItem) : Bool :=
  (missingFields it).isEmpty && pyContains "@business_unit" (it.query.getD "")

/-- Does the item's explicit database key (if any) resolve in `DB_CONFIGS`? -/
def itemKeyOk (it : ReportItem) : Bool :=
  match it.databaseKey with
  | none => true
  | some k => k == "default" || k == "INTEGRACION_CW_20_DEV"

/-- An item is recorded as a success exactly when it executes and its
(explicit or inferred) database key resolves in `DB_CONFIGS`; an explicit
unknown key raises a `KeyError` while the success entry is being built,
turning the item into a failure after the procedure ran. -/
def itemValid (it : ReportItem) : Bool :=
  itemExecutes it && itemKeyOk it

/-- A success entry of `bulk_create_reports`. -/
structure CreateSuccess where
  index : Nat
  reportPfx : String
  queryDatabase : String
  spDatabase : String
deriving DecidableEq

/-- A failure entry of `bulk_create_reports`. -/
structure CreateFailure where
  index : Nat
  reportPfx : String
  error : String
deriving DecidableEq

/-- Loop accumulator of `bulk_create_reports`. -/
structure BulkCreateAcc where
  successful : List CreateSuccess
  failed : List CreateFailure
  totalCreated : Nat
  trace : List Event

/-- One iteration of the `bulk_create_reports` loop (`i` is the 1-based
enumeration index).  Validation failures append to `failed` and continue;
an executing item appends the stored-procedure call to the trace. -/
def processReportItem (e : Env) (acc : BulkCreateAcc) (i : Nat)
    (it : ReportItem) : BulkCreateAcc :=
  let mf := missingFields it
  if !mf.isEmpty then
    { acc with failed := acc.failed ++
        [⟨i, it.reportPfx.getD "N/A",
          "Campos faltantes: " ++ String.intercalate ", " mf⟩] }
  else
    let q := it.query.getD ""
    let pfx := it.reportPfx.getD ""
    if !(pyContains "@business_unit" q) then
      { acc with failed := acc.failed ++
          [⟨i, pfx, "La query debe incluir el parámetro @business_unit"⟩] }
    else
      let qk := match it.databaseKey with
        | none => inferDbKey q
        | some k => k
      let pc := paramsConfig it.additionalParams
      let t := acc.trace ++ [Event.execSP pfx pc]
      match lookupConfig e qk with
      | some c =>
        { acc with
          successful := acc.successful ++
            [⟨i, pfx, pyStr c.database, pyStr e.devDatabase⟩],
          totalCreated := acc.totalCreated + 1,
          trace := t }
      | none =>
        { acc with
          failed := acc.failed ++ [⟨i, pfx, "'" ++ qk ++ "'"⟩],
          trace := t }

/-- One success block of the bulk-create summary. -/
def createSuccessLine (r : CreateSuccess) : String :=
  "  " ++ toString r.index ++ ". " ++ r.reportPfx ++ "\n     Query apunta a: " ++
    r.queryDatabase ++ "\n     SP ejecutado en: " ++ r.spDatabase ++ "\n\n"

/-- One failure line of the bulk-create summary. -/
def createFailureLine (r : CreateFailure) : String :=
  "  " ++ toString r.index ++ ". " ++ r.reportPfx ++ ": " ++ r.error ++ "\n"

/-- The final summary message of `bulk_create_reports`. -/
def bulkCreateMsg (acc : BulkCreateAcc) : String :=
  "📊 Creación masiva de reportes completada!\n\n" ++
    "✅ Reportes creados exitosamente: " ++ toString acc.totalCreated ++ "\n" ++
    "❌ Reportes fallidos: " ++ toString acc.failed.length ++ "\n\n" ++
    (if acc.successful.isEmpty then ""
     else "📋 Reportes creados:\n" ++ String.join (acc.successful.map createSuccessLine)) ++
    (if acc.failed.isEmpty then ""
     else "❌ Reportes fallidos:\n" ++ String.join (acc.failed.map createFailureLine))

/-- Result of `bulk_create_reports`, exposing the per-item outcome lists
alongside the rendered message, trace and state. -/
structure BulkCreateRes where
  msg : String
  trace : List Event
  state : DbState
  successful : List CreateSuccess
  failed : List CreateFailure
  totalCreated : Nat

/-- `bulk_create_reports`: one connection, one loop over the enumerated
items collecting independent outcomes, one commit at the end. -/
def bulkCreateReports (e : Env) (s : DbState) (items : List ReportItem) :
    BulkCreateRes :=
  if items.isEmpty then
    { msg := "⚠️ No se proporcionaron datos de reportes para crear",
      trace := [], state := s, successful := [], failed := [], totalCreated := 0 }
  else
    let cs := mkConnString (defaultConfig e)
    let acc0 : BulkCreateAcc := ⟨[], [], 0, [Event.connect cs]⟩
    let acc := (items.enumFrom 1).foldl
      (fun a p => processReportItem e a p.1 p.2) acc0
    { msg := bulkCreateMsg acc,
      trace := acc.trace ++ [Event.commit, Event.close], state := s,
      successful := acc.successful, failed := acc.failed,
      totalCreated := acc.totalCreated }

/-- Arguments of `assign_report_to_role`, with the source's defaults. -/
structure AssignArgs where
  reportPfx : String
  businessUnit : String
  roleDescription : String
  applicationType : Option String := none
  order : Option Int := none
  customTag : Option String := none
  salesOffice : Option String := none
  centerLogistical : Option String := none

/-- The success message of `assign_report_to_role`. -/
def assignSuccessMsg (a : AssignArgs) (r : RoleRow) : String :=
  "✅ Reporte asignado exitosamente!\n\n📋 Detalles de la asignación:\n  • Reporte: " ++
    a.reportPfx ++ "\n  • Unidad: " ++ a.businessUnit ++ "\n  • Rol: " ++ r.code ++
    " - " ++ r.description ++ "\n  • Tipo de aplicación: " ++
    orNAStr a.applicationType ++ "\n  • Orden: " ++ orNAInt a.order ++
    "\n  • Etiqueta personalizada: " ++ orNAStr a.customTag ++
    "\n  • Oficina de ventas: " ++ orNAStr a.salesOffice ++
    "\n  • Centro logístico: " ++ orNAStr a.centerLogistical ++ "\n"

/-- The row `assign_report_to_role` inserts for a resolved role code. -/
def insertedRow (a : AssignArgs) (code : String) : AssignRow :=
  ⟨code, a.reportPfx, a.businessUnit, a.applicationType, a.order, a.customTag,
   a.salesOffice, a.centerLogistical⟩

/-- `assign_report_to_role`: resolve the role by description (first match
wins, warning when several match), skip with a warning when the assignment
already exists (the pre-insert COUNT check), else insert.  Both early
returns leave the connection open; only the full-success path closes it. -/
def assignReportToRole (e : Env) (s : DbState) (a : AssignArgs) : Res :=
  let cs := mkConnString (defaultConfig e)
  let pat := "%" ++ a.roleDescription ++ "%"
  let t0 := [Event.connect cs, Event.queryRoles a.businessUnit pat]
  match resolveRoles s a.businessUnit a.roleDescription with
  | [] =>
    { msg := "❌ No se encontró ningún rol con descripción '" ++
        a.roleDescription ++ "' para la unidad " ++ a.businessUnit ++
        " (excluyendo sys_admin)",
      trace := t0, state := s }
  | r0 :: rest =>
    let warningMsg :=
      if rest.isEmpty then ""
      else "⚠️ Se encontraron múltiples roles. Usando: " ++ r0.code ++ " - " ++
        r0.description ++ "\n\n"
    let t1 := t0 ++ [Event.queryCountAssigned a.businessUnit a.reportPfx r0.code]
    if countAssigned s a.businessUnit a.reportPfx r0.code > 0 then
      { msg := "⚠️ El reporte '" ++ a.reportPfx ++ "' ya está asignado al rol '" ++
          r0.code ++ "' para la unidad " ++ a.businessUnit,
        trace := t1, state := s }
    else
      let row : AssignRow := insertedRow a r0.code
      { msg := warningMsg ++ assignSuccessMsg a r0,
        trace := t1 ++ [Event.insertAssign row, Event.commit, Event.close],
        state := { s with assignedReports := s.assignedReports ++ [row] } }

/-- One item of `bulk_assign_reports_to_roles` (dictionary keys optional). -/
structure AssignItem where
  reportPfx : Option String := none
  businessUnit : Option String := none
  roleDescription : Option String := none
  applicationType : Option String := none
  order : Option Int := none
  customTag : Option String := none
  salesOffice : Option String := none
  centerLogistical : Option String := none

/-- Missing required fields of a bulk-assign item, in source order. -/
def assignMissing (it : AssignItem) : List String :=
  (([("report_prefix", it.reportPfx.isSome),
     ("business_unit", it.businessUnit.isSome),
     ("role_description", it.roleDescription.isSome),
     ("application_type", it.applicationType.isSome)].filter fun p => !p.2).map
    fun p => p.1)

/-- A success entry of `bulk_assign_reports_to_roles`. -/
structure AssignSuccess where
  index : Nat
  reportPfx : String
  businessUnit : String
  roleCode : String
  roleDescription : String
  applicationType : String
  warning : String
deriving DecidableEq

/-- A skipped entry (assignment already exists). -/
structure AssignSkip where
  index : Nat
  reportPfx : String
  businessUnit : String
  roleCode : String
  reason : String
deriving DecidableEq

/-- A failure entry of `bulk_assign_reports_to_roles`. -/
structure AssignFailure where
  index : Nat
  reportPfx : String
  businessUnit : String
  error : String
deriving DecidableEq

/-- Loop accumulator of `bulk_assign_reports_to_roles`; the state is
threaded because the duplicate check of a later item sees the uncommitted
inserts of earlier items on the same connection. -/
structure BulkAssignAcc where
  state : DbState
  successful : List AssignSuccess
  failed : List AssignFailure
  skipped : List AssignSkip
  totalInserted : Nat
  trace : List Event

/-- One iteration of the `bulk_assign_reports_to_roles` loop: validate the
required fields and the application type, resolve the role, skip existing
assignments, else insert. -/
def processAssignItem (acc : BulkAssignAcc) (i : Nat) (it : AssignItem) :
    BulkAssignAcc :=
  let mf := assignMissing it
  if !mf.isEmpty then
    { acc with
      failed := acc.failed ++
        [⟨i, it.reportPfx.getD "N/A", it.businessUnit.getD "N/A",
          "Campos faltantes: " ++ String.intercalate ", " mf⟩] }
  else
    let pfx := it.reportPfx.getD ""
    let bu := it.businessUnit.getD ""
    let rdesc := it.roleDescription.getD ""
    let appType := it.applicationType.getD ""
    if !(appType == "sales_force" || appType == "merchandising") then
      { acc with
        failed := acc.failed ++
          [⟨i, pfx, bu,
            "application_type debe ser 'sales_force' o 'merchandising', recibido: '" ++
              appType ++ "'"⟩] }
    else
      let t1 := acc.trace ++ [Event.queryRoles bu ("%" ++ rdesc ++ "%")]
      match resolveRoles acc.state bu rdesc with
      | [] =>
        { acc with
          trace := t1,
          failed := acc.failed ++
            [⟨i, pfx, bu,
              "No se encontró rol con descripción '" ++ rdesc ++
                "' (excluyendo sys_admin)"⟩] }
      | r0 :: rest =>
        let warn :=
          if rest.isEmpty then ""
          else "Se encontraron múltiples roles. Usando: " ++ r0.code ++ " - " ++
            r0.description
        let t2 := t1 ++ [Event.queryCountAssigned bu pfx r0.code]
        if countAssigned acc.state bu pfx r0.code > 0 then
          { acc with
            trace := t2,
            skipped := acc.skipped ++ [⟨i, pfx, bu, r0.code, "Asignación ya existe"⟩] }
        else
          let row : AssignRow :=
            ⟨r0.code, pfx, bu, some appType, it.order, it.customTag,
             it.salesOffice, it.centerLogistical⟩
          { acc with
            trace := t2 ++ [Event.insertAssign row],
            state := { acc.state with
              assignedReports := acc.state.assignedReports ++ [row] },
            successful := acc.successful ++
              [⟨i, pfx, bu, r0.code, r0.description, appType, warn⟩],
            totalInserted := acc.totalInserted + 1 }

/-- Result of `bulk_assign_reports_to_roles`. -/
structure BulkAssignRes where
  msg : String
  trace : List Event
  state : DbState
  successful : List AssignSuccess
  failed : List AssignFailure
  skipped : List AssignSkip
  totalInserted : Nat

/-- One success block of the bulk-assign summary. -/
def assignSuccessLine (r : AssignSuccess) : String :=
  "  " ++ toString r.index ++ ". " ++ r.reportPfx ++ " → " ++ r.roleCode ++
    " - " ++ r.roleDescription ++ "\n     Unidad: " ++ r.businessUnit ++
    " | Tipo: " ++ r.applicationType ++ "\n" ++
    (if r.warning == "" then "" else "     ⚠️ " ++ r.warning ++ "\n") ++ "\n"

/-- One skipped line of the bulk-assign summary. -/
def assignSkipLine (r : AssignSkip) : String :=
  "  " ++ toString r.index ++ ". " ++ r.reportPfx ++ " → " ++ r.roleCode ++
    " (" ++ r.reason ++ ")\n"

/-- One failure line of the bulk-assign summary. -/
def assignFailureLine (r : AssignFailure) : String :=
  "  " ++ toString r.index ++ ". " ++ r.reportPfx ++ " (" ++ r.businessUnit ++
    "): " ++ r.error ++ "\n"

/-- The final summary message of `bulk_assign_reports_to_roles`. -/
def bulkAssignMsg (acc : BulkAssignAcc) : String :=
  "📊 Asignación masiva de reportes completada!\n\n" ++
    "✅ Asignaciones creadas: " ++ toString acc.totalInserted ++ "\n" ++
    "⏭️ Asignaciones omitidas (ya existían): " ++ toString acc.skipped.length ++
    "\n" ++ "❌ Asignaciones fallidas: " ++ toString acc.failed.length ++ "\n\n" ++
    (if acc.successful.isEmpty then ""
     else "📋 Asignaciones creadas:\n" ++
       String.join (acc.successful.map assignSuccessLine)) ++
    (if acc.skipped.isEmpty then ""
     else "⏭️ Asignaciones omitidas:\n" ++
       String.join (acc.skipped.map assignSkipLine)) ++
    (if acc.failed.isEmpty then ""
     else "\n❌ Asignaciones fallidas:\n" ++
       String.join (acc.failed.map assignFailureLine))

/-- `bulk_assign_reports_to_roles`: one connection, one loop collecting
independent success/skip/failure outcomes, one commit at the end. -/
def bulkAssignReportsToRoles (e : Env) (s : DbState) (items : List AssignItem) :
    BulkAssignRes :=
  if items.isEmpty then
    { msg := "⚠️ No se proporcionaron datos de asignaciones",
      trace := [], state := s, successful := [], failed := [], skipped := [],
      totalInserted := 0 }
  else
    let cs := mkConnString (defaultConfig e)
    let acc0 : BulkAssignAcc := ⟨s, [], [], [], 0, [Event.connect cs]⟩
    let acc := (items.enumFrom 1).foldl (fun a p => processAssignItem a p.1 p.2) acc0
    { msg := bulkAssignMsg acc,
      trace := acc.trace ++ [Event.commit, Event.close], state := acc.state,
      successful := acc.successful, failed := acc.failed, skipped := acc.skipped,
      totalInserted := acc.totalInserted }

/-- The dynamically built `SET` clause entries: one per non-null
caller-supplied field, in source order. -/
def updateFieldsOf (applicationType : Option String) (order : Option Int)
    (customTag salesOffice centerLogistical : Option String) : List String :=
  (if applicationType.isSome then ["application_type = ?"] else []) ++
    (if order.isSome then ["[order] = ?"] else []) ++
    (if customTag.isSome then ["custom_tag = ?"] else []) ++
    (if salesOffice.isSome then ["sales_office = ?"] else []) ++
    (if centerLogistical.isSome then ["center_logistical = ?"] else [])

/-- Arguments of `update_report_assignment`. -/
structure UpdateArgs where
  reportPfx : String
  businessUnit : String
  roleCode : String
  applicationType : Option String := none
  order : Option Int := none
  customTag : Option String := none
  salesOffice : Option String := none
  centerLogistical : Option String := none

/-- Effect of the dynamic `UPDATE` on one matching row: each non-null
caller field overwrites the column, the rest stay. -/
def applyUpdate (u : UpdateArgs) (a : AssignRow) : AssignRow :=
  { a with
    applicationType := match u.applicationType with
      | some v => some v
      | none => a.applicationType,
    order := match u.order with
      | some v => some v
      | none => a.order,
    customTag := match u.customTag with
      | some v => some v
      | none => a.customTag,
    salesOffice := match u.salesOffice with
      | some v => some v
      | none => a.salesOffice,
    centerLogistical := match u.centerLogistical with
      | some v => some v
      | none => a.centerLogistical }

/-- The `LEFT JOIN default_roles` description of a role code in a unit. -/
def roleDescOf (s : DbState) (bu code : String) : Option String :=
  (s.defaultRoles.find? fun r => r.code == code && r.businessUnit == bu).map
    fun r => r.description

/-- The per-field change lines of the single-row update message: a line per
supplied field whose value differs from the current one. -/
def updateChanges (u : UpdateArgs) (cur : AssignRow) : List String :=
  (match u.applicationType with
   | some v =>
     if cur.applicationType ≠ some v then
       ["Tipo de aplicación: " ++ pyStr cur.applicationType ++ " → " ++ v]
     else []
   | none => []) ++
  (match u.order with
   | some v =>
     if cur.order ≠ some v then
       ["Orden: " ++ pyStrInt cur.order ++ " → " ++ toString v]
     else []
   | none => []) ++
  (match u.customTag with
   | some v =>
     if cur.customTag ≠ some v then
       ["Etiqueta: " ++ pyStr cur.customTag ++ " → " ++ v]
     else []
   | none => []) ++
  (match u.salesOffice with
   | some v =>
     if cur.salesOffice ≠ some v then
       ["Oficina de ventas: " ++ pyStr cur.salesOffice ++ " → " ++ v]
     else []
   | none => []) ++
  (match u.centerLogistical with
   | some v =>
     if cur.centerLogistical ≠ some v then
       ["Centro logístico: " ++ pyStr cur.centerLogistical ++ " → " ++ v]
     else []
   | none => [])

/-- The success message of `update_report_assignment`. -/
def updateSuccessMsg (u : UpdateArgs) (roleDesc : Option String)
    (changes : List String) : String :=
  let changesText :=
    if changes.isEmpty then "Sin cambios detectados"
    else String.intercalate "\n  • " changes
  "✅ Asignación actualizada exitosamente!\n\n📋 Detalles de la actualización:\n  • Reporte: " ++
    u.reportPfx ++ "\n  • Unidad: " ++ u.businessUnit ++ "\n  • Rol: " ++
    u.roleCode ++ " - " ++ orNAStr roleDesc ++
    "\n  \n🔄 Cambios realizados:\n  • " ++ changesText ++ "\n"

/-- `update_report_assignment`: existence check, current-row fetch, then a
`SET` clause built from only the non-null fields; zero supplied fields is
returned as a warning before any `UPDATE` statement runs. -/
def updateReportAssignment (e : Env) (s : DbState) (u : UpdateArgs) : Res :=
  let cs := mkConnString (defaultConfig e)
  let t1 := [Event.connect cs,
    Event.queryCountAssigned u.businessUnit u.reportPfx u.roleCode]
  if countAssigned s u.businessUnit u.reportPfx u.roleCode == 0 then
    { msg := "❌ No existe una asignación del reporte '" ++ u.reportPfx ++
        "' para el rol '" ++ u.roleCode ++ "' en la unidad " ++ u.businessUnit,
      trace := t1, state := s }
  else
    let t2 := t1 ++
      [Event.queryCurrentAssign u.businessUnit u.reportPfx u.roleCode]
    match s.assignedReports.find?
        (matchesKey u.businessUnit u.reportPfx u.roleCode) with
    | none =>
      { msg := "❌ Error al obtener la asignación actual", trace := t2, state := s }
    | some cur =>
      let fields := updateFieldsOf u.applicationType u.order u.customTag
        u.salesOffice u.centerLogistical
      if fields.isEmpty then
        { msg := "⚠️ No se proporcionaron campos para actualizar",
          trace := t2, state := s }
      else
        let s2 := { s with
          assignedReports := s.assignedReports.map fun a =>
            if matchesKey u.businessUnit u.reportPfx u.roleCode a then
              applyUpdate u a
            else a }
        { msg := updateSuccessMsg u (roleDescOf s u.businessUnit u.roleCode)
            (updateChanges u cur),
          trace := t2 ++ [Event.updateAssign u.businessUnit u.reportPfx
            [u.roleCode] fields, Event.commit, Event.close],
          state := s2 }

/-- Insertion of one role-info pair into a list sorted by role code
(`ORDER BY ar.[role]`, approximated by code-point order; it only affects
the order of lines in the success message). -/
def insertByRole (x : String × Option String) :
    List (String × Option String) → List (String × Option String)
  | [] => [x]
  | y :: ys => if x.1 ≤ y.1 then x :: y :: ys else y :: insertByRole x ys

/-- The joined, sorted role-info rows read before a bulk update. -/
def rolesInfoOf (s : DbState) (bu pfx : String) (codes : List String) :
    List (String × Option String) :=
  ((s.assignedReports.filter fun a =>
      a.businessUnit == bu && a.reportPfx == pfx && codes.contains a.role).map
    fun a => (a.role, roleDescOf s bu a.role)).foldr insertByRole []

/-- The change lines of the bulk update message (no current values). -/
def bulkUpdateChanges (applicationType : Option String) (order : Option Int)
    (customTag salesOffice centerLogistical : Option String) : List String :=
  (match applicationType with
   | some v => ["Tipo de aplicación: → " ++ v]
   | none => []) ++
  (match order with
   | some v => ["Orden: → " ++ toString v]
   | none => []) ++
  (match customTag with
   | some v => ["Etiqueta: → " ++ v]
   | none => []) ++
  (match salesOffice with
   | some v => ["Oficina de ventas: → " ++ v]
   | none => []) ++
  (match centerLogistical with
   | some v => ["Centro logístico: → " ++ v]
   | none => [])

/-- The success message of `bulk_update_report_assignments`. -/
def bulkUpdateSuccessMsg (pfx bu : String) (affected : Nat)
    (rolesInfo : List (String × Option String)) (changes : List String) : String :=
  let rolesText := String.intercalate "\n  • "
    (rolesInfo.map fun r => r.1 ++ " - " ++ orNAStr r.2)
  let changesDisplay :=
    if changes.isEmpty then "Sin cambios detectados"
    else String.intercalate "\n  • " changes
  "✅ Actualización masiva completada exitosamente!\n\n📋 Detalles de la actualización:\n  • Reporte: " ++
    pfx ++ "\n  • Unidad: " ++ bu ++ "\n  • Registros actualizados: " ++
    toString affected ++ "\n  \n👥 Roles actualizados:\n  • " ++ rolesText ++
    "\n  \n🔄 Cambios aplicados:\n  • " ++ changesDisplay ++ "\n"

/-- `bulk_update_report_assignments`: existence check over `[role] IN`,
role-info read, then one `UPDATE` applying the same non-null fields to all
matching rows; zero supplied fields is a warning before any `UPDATE`. -/
def bulkUpdateReportAssignments (e : Env) (s : DbState) (pfx bu : String)
    (roleCodes : List String) (applicationType : Option String)
    (order : Option Int) (customTag salesOffice centerLogistical : Option String) :
    Res :=
  if roleCodes.isEmpty then
    { msg := "⚠️ No se proporcionaron códigos de roles para actualizar",
      trace := [], state := s }
  else
    let cs := mkConnString (defaultConfig e)
    let t1 := [Event.connect cs, Event.queryCountAssignedIn bu pfx roleCodes]
    if countAssignedIn s bu pfx roleCodes == 0 then
      { msg := "❌ No existen asignaciones del reporte '" ++ pfx ++
          "' para los roles " ++ String.intercalate ", " roleCodes ++
          " en la unidad " ++ bu,
        trace := t1, state := s }
    else
      let t2 := t1 ++ [Event.queryRolesInfoIn bu pfx roleCodes]
      let fields := updateFieldsOf applicationType order customTag salesOffice
        centerLogistical
      if fields.isEmpty then
        { msg := "⚠️ No se proporcionaron campos para actualizar",
          trace := t2, state := s }
      else
        let u : UpdateArgs :=
          ⟨pfx, bu, "", applicationType, order, customTag, salesOffice,
           centerLogistical⟩
        let affected := countAssignedIn s bu pfx roleCodes
        let s2 := { s with
          assignedReports := s.assignedReports.map fun a =>
            if a.businessUnit == bu && a.reportPfx == pfx &&
                roleCodes.contains a.role then
              applyUpdate u a
            else a }
        { msg := bulkUpdateSuccessMsg pfx bu affected
            (rolesInfoOf s bu pfx roleCodes)
            (bulkUpdateChanges applicationType order customTag salesOffice
              centerLogistical),
          trace := t2 ++ [Event.updateAssign bu pfx roleCodes fields,
            Event.commit, Event.close],
          state := s2 }

/-- Is this event an `INSERT INTO assigned_reports`? -/
def isInsertEvent : Event → Bool
  | .insertAssign _ => true
  | _ => false

/-- Is this event an `UPDATE assigned_reports`? -/
def isUpdateEvent : Event → Bool
  | .updateAssign _ _ _ _ => true
  | _ => false

/-- The stored-procedure invocations of a trace, in order, with the report
identifier and the parameter-type map passed (JSON-serialized) to each. -/
def spPayloads (t : List Event) : List (String × List (String × String)) :=
  t.filterMap fun ev =>
    match ev with
    | .execSP p ps => some (p, ps)
    | _ => none

/-- A sample environment used to evaluate the theorems on closed inputs. -/
def env0 : Env := ⟨some "srv01", some "ECOSYSTEM_DEV", some "svc", some "pw"⟩

/-- A sample role row. -/
def role0 : RoleRow := ⟨"BU1", "R1", "administrador", "sales_force"⟩

/-- A sample state: one role, no assignments, empty oracles. -/
def state0 : DbState := ⟨[role0], [], fun _ _ => [], fun _ => ([], [])⟩

/-- A sample existing assignment row for `role0`. -/
def row0 : AssignRow :=
  ⟨"R1", "REP1", "BU1", some "sales_force", some 1, none, none, none⟩

/-- A sample state in which `row0` is already assigned. -/
def state1 : DbState := ⟨[role0], [row0], fun _ _ => [], fun _ => ([], [])⟩

/-- A sample information-schema row. -/
def infoCol0 : InfoCol := ⟨"id", "int", none, "NO"⟩

/-- A sample state whose information schema knows one column everywhere. -/
def state2 : DbState := ⟨[], [], fun _ _ => [infoCol0], fun _ => ([], [])⟩

/-- A sample state whose raw-query oracle returns one column, two rows. -/
def state3 : DbState := ⟨[], [], fun _ _ => [], fun _ => (["a"], [["1"], ["2"]])⟩

/-! ### String-containment lemmas -/

/-- `isPref` recognises exactly the list-prefix relation. -/
lemma isPref_iff (n : List Char) : ∀ h : List Char,
    isPref n h = true ↔ ∃ t, h = n ++ t := by
  induction n with
  | nil =>
    intro h
    simp [isPref]
  | cons a as ih =>
    intro h
    cases h with
    | nil =>
      simp [isPref]
    | cons b bs =>
      simp only [isPref, Bool.and_eq_true, beq_iff_eq, ih, List.cons_append,
        List.cons.injEq]
      constructor
      · rintro ⟨hab, t, ht⟩
        exact ⟨t, hab.symm, ht⟩
      · rintro ⟨t, hba, ht⟩
        exact ⟨hba.symm, t, ht⟩

/-- `containsL` recognises exactly substring containment. -/
lemma containsL_iff (n : List Char) : ∀ h : List Char,
    containsL n h = true ↔ ∃ p q, h = p ++ n ++ q := by
  intro h
  induction h with
  | nil =>
    simp only [containsL, List.isEmpty_iff]
    constructor
    · rintro rfl
      exact ⟨[], [], rfl⟩
    · rintro ⟨p, q, hpq⟩
      rcases List.append_eq_nil.mp hpq.symm with ⟨h1, h2⟩
      exact (List.append_eq_nil.mp h1).2
  | cons c rest ih =>
    simp only [containsL, Bool.or_eq_true, isPref_iff, ih]
    constructor
    · rintro (⟨t, ht⟩ | ⟨p, q, hpq⟩)
      · exact ⟨[], t, by simpa using ht⟩
      · exact ⟨c :: p, q, by simp [hpq]⟩
    · rintro ⟨p, q, hpq⟩
      cases p with
      | nil =>
        exact Or.inl ⟨q, by simpa using hpq⟩
      | cons x xs =>
        simp only [List.cons_append, List.cons.injEq] at hpq
        exact Or.inr ⟨xs, q, hpq.2⟩

/-- `pyContains` on strings, characterised on the underlying data. -/
lemma pyContains_iff (n h : String) :
    pyContains n h = true ↔ ∃ p q, h.data = p ++ n.data ++ q :=
  containsL_iff n.data h.data

/-- A needle is found in any list that displays it. -/
lemma containsL_of_append (n p q : List Char) :
    containsL n (p ++ n ++ q) = true :=
  (containsL_iff n _).mpr ⟨p, q, rfl⟩

/-- Containment in a mapped list is containment of a preimage segment. -/
lemma containsL_map_iff (f : Char → Char) (n h : List Char) :
    containsL n (h.map f) = true ↔ ∃ p l q, h = p ++ l ++ q ∧ l.map f = n := by
  rw [containsL_iff]
  constructor
  · rintro ⟨p, q, hpq⟩
    rw [List.append_assoc] at hpq
    obtain ⟨a, b, hab, -, hb⟩ := List.map_eq_append_iff.mp hpq
    obtain ⟨l, r, hlr, hl, -⟩ := List.map_eq_append_iff.mp hb
    exact ⟨a, l, r, by rw [hab, hlr, List.append_assoc], hl⟩
  · rintro ⟨p, l, q, rfl, hl⟩
    exact ⟨p.map f, q.map f, by simp [hl]⟩

/-! ### Assignment-count lemmas -/

/-- Appending one row changes a key's count by one exactly when the row
matches the key. -/
lemma countAssigned_append (s : DbState) (row : AssignRow) (bu pfx role : String) :
    countAssigned { s with assignedReports := s.assignedReports ++ [row] }
        bu pfx role =
      countAssigned s bu pfx role +
        (if matchesKey bu pfx role row then 1 else 0) := by
  by_cases hm : matchesKey bu pfx role row
  · simp [countAssigned, List.filter_append, hm]
  · simp [countAssigned, List.filter_append, hm]

/-- Role resolution reads only `default_roles`. -/
lemma resolveRoles_congr (s1 s2 : DbState)
    (h : s1.defaultRoles = s2.defaultRoles) (bu d : String) :
    resolveRoles s1 bu d = resolveRoles s2 bu d := by
  simp [resolveRoles, h]

/-- `assign_report_to_role` never pushes any key's assignment count past
one: whatever it inserts had count zero by the pre-insert check. -/
lemma countAssigned_assign_le (e : Env) (s : DbState) (a : AssignArgs)
    (bu pfx role : String) :
    countAssigned (assignReportToRole e s a).state bu pfx role ≤
      max (countAssigned s bu pfx role) 1 := by
  unfold assignReportToRole
  cases hr : resolveRoles s a.businessUnit a.roleDescription with
  | nil => exact Nat.le_max_left _ _
  | cons r0 rest =>
    by_cases hex : countAssigned s a.businessUnit a.reportPfx r0.code > 0
    · simp only [hex, if_true]
      exact Nat.le_max_left _ _
    · simp only [hex, if_false]
      rw [countAssigned_append]
      by_cases hm : matchesKey bu pfx role (insertedRow a r0.code)
      · have hk : (a.businessUnit = bu ∧ a.reportPfx = pfx) ∧ r0.code = role := by
          simpa [matchesKey, insertedRow] using hm
        have hz : countAssigned s bu pfx role = 0 := by
          obtain ⟨⟨h1, h2⟩, h3⟩ := hk
          rw [← h1, ← h2, ← h3]
          omega
        simp [hm, hz]
      · simp only [hm, if_false, Nat.add_zero]
        exact Nat.le_max_left _ _

/-- The bulk-assign loop body obeys the same per-key bound. -/
lemma countAssigned_processAssign_le (acc : BulkAssignAcc) (i : Nat)
    (it : AssignItem) (bu pfx role : String) :
    countAssigned (processAssignItem acc i it).state bu pfx role ≤
      max (countAssigned acc.state bu pfx role) 1 := by
  unfold processAssignItem
  dsimp only
  split
  · exact Nat.le_max_left _ _
  · split
    · exact Nat.le_max_left _ _
    · cases hr : resolveRoles acc.state (it.businessUnit.getD "")
          (it.roleDescription.getD "") with
      | nil =>
        exact Nat.le_max_left _ _
      | cons r0 rest =>
        dsimp only
        by_cases hex : countAssigned acc.state (it.businessUnit.getD "")
            (it.reportPfx.getD "") r0.code > 0
        · simp only [hex, if_true]
          exact Nat.le_max_left _ _
        · simp only [hex, if_false]
          rw [countAssigned_append]
          by_cases hm : matchesKey bu pfx role
              ⟨r0.code, it.reportPfx.getD "", it.businessUnit.getD "",
               some (it.applicationType.getD ""), it.order, it.customTag,
               it.salesOffice, it.centerLogistical⟩
          · have hk : (it.businessUnit.getD "" = bu ∧ it.reportPfx.getD "" = pfx) ∧
                r0.code = role := by
              simpa [matchesKey] using hm
            have hz : countAssigned acc.state bu pfx role = 0 := by
              obtain ⟨⟨h1, h2⟩, h3⟩ := hk
              rw [← h1, ← h2, ← h3]
              omega
            simp [hm, hz]
          · simp only [hm, if_false, Nat.add_zero]
            exact Nat.le_max_left _ _

/-- The whole bulk-assign loop obeys the per-key bound. -/
lemma countAssigned_foldAssign_le :
    ∀ (l : List (Nat × AssignItem)) (acc : BulkAssignAcc) (bu pfx role : String),
    countAssigned
        ((l.foldl (fun a p => processAssignItem a p.1 p.2) acc).state) bu pfx role ≤
      max (countAssigned acc.state bu pfx role) 1 := by
  intro l
  induction l with
  | nil =>
    intro acc bu pfx role
    exact Nat.le_max_left _ _
  | cons x xs ih =>
    intro acc bu pfx role
    have h1 := ih (processAssignItem acc x.1 x.2) bu pfx role
    have h2 := countAssigned_processAssign_le acc x.1 x.2 bu pfx role
    simp only [List.foldl_cons]
    omega

/-- On the success path, `assign_report_to_role` appends exactly the
resolved row. -/
lemma assign_success_state (e : Env) (s : DbState) (a : AssignArgs)
    (r0 : RoleRow) (rs : List RoleRow)
    (hroles : resolveRoles s a.businessUnit a.roleDescription = r0 :: rs)
    (hz : countAssigned s a.businessUnit a.reportPfx r0.code = 0) :
    (assignReportToRole e s a).state =
      { s with assignedReports := s.assignedReports ++ [insertedRow a r0.code] } := by
  simp [assignReportToRole, hroles, hz]

/-- The inserted row matches its own key. -/
lemma matchesKey_insertedRow (a : AssignArgs) (code : String) :
    matchesKey a.businessUnit a.reportPfx code (insertedRow a code) = true := by
  simp [matchesKey, insertedRow]

/-- The already-assigned skip branch of `assign_report_to_role`: warning
message, no insert, no close, state unchanged. -/
lemma assign_skip (e : Env) (s : DbState) (a : AssignArgs)
    (r0 : RoleRow) (rs : List RoleRow)
    (hroles : resolveRoles s a.businessUnit a.roleDescription = r0 :: rs)
    (hpos : countAssigned s a.businessUnit a.reportPfx r0.code > 0) :
    assignReportToRole e s a =
      { msg := "⚠️ El reporte '" ++ a.reportPfx ++ "' ya está asignado al rol '" ++
          r0.code ++ "' para la unidad " ++ a.businessUnit,
        trace := [Event.connect (mkConnString (defaultConfig e)),
          Event.queryRoles a.businessUnit ("%" ++ a.roleDescription ++ "%"),
          Event.queryCountAssigned a.businessUnit a.reportPfx r0.code],
        state := s } := by
  simp [assignReportToRole, hroles, hpos]

/-- Claim C1 (confirmed).  For every database state, calling
`assign_report_to_role` twice with identical arguments whose role
description resolves to the same role code leaves exactly one row in
`assigned_reports` for the key (business unit, report, role): the second
call hits the pre-insert COUNT check, reports the assignment as already
existing, performs no INSERT, and leaves the state unchanged.  Moreover no
single or bulk assignment operation ever pushes any key's row count past
`max count 1`, i.e. none of them ever inserts a duplicate assignment row. -/
theorem claim_C1 :
    (∀ (e : Env) (s : DbState) (a : AssignArgs) (r0 : RoleRow) (rs : List RoleRow),
      resolveRoles s a.businessUnit a.roleDescription = r0 :: rs →
      countAssigned s a.businessUnit a.reportPfx r0.code = 0 →
      (assignReportToRole e (assignReportToRole e s a).state a).msg =
          "⚠️ El reporte '" ++ a.reportPfx ++ "' ya está asignado al rol '" ++
            r0.code ++ "' para la unidad " ++ a.businessUnit ∧
        countAssigned (assignReportToRole e (assignReportToRole e s a).state a).state
            a.businessUnit a.reportPfx r0.code = 1 ∧
        (assignReportToRole e (assignReportToRole e s a).state a).trace.countP
            (fun ev => isInsertEvent ev) = 0 ∧
        (assignReportToRole e (assignReportToRole e s a).state a).state =
          (assignReportToRole e s a).state) ∧
    (∀ (e : Env) (s : DbState) (a : AssignArgs) (bu pfx role : String),
      countAssigned (assignReportToRole e s a).state bu pfx role ≤
        max (countAssigned s bu pfx role) 1) ∧
    (∀ (e : Env) (s : DbState) (items : List AssignItem) (bu pfx role : String),
      countAssigned (bulkAssignReportsToRoles e s items).state bu pfx role ≤
        max (countAssigned s bu pfx role) 1) := by
  refine ⟨?_, ?_, ?_⟩
  · intro e s a r0 rs hroles hz
    have hs1 := assign_success_state e s a r0 rs hroles hz
    have hc1 : countAssigned (assignReportToRole e s a).state
        a.businessUnit a.reportPfx r0.code = 1 := by
      rw [hs1, countAssigned_append, hz, matchesKey_insertedRow]
      simp
    have hroles1 : resolveRoles (assignReportToRole e s a).state
        a.businessUnit a.roleDescription = r0 :: rs := by
      rw [hs1]
      exact (resolveRoles_congr _ s rfl _ _).trans hroles
    have hskip := assign_skip e (assignReportToRole e s a).state a r0 rs hroles1
      (by rw [hc1]; exact Nat.one_pos)
    rw [hskip]
    refine ⟨rfl, ?_, ?_, rfl⟩
    · exact hc1
    · simp [List.countP_cons, isInsertEvent]
  · intro e s a bu pfx role
    exact countAssigned_assign_le e s a bu pfx role
  · intro e s items bu pfx role
    unfold bulkAssignReportsToRoles
    split
    · exact Nat.le_max_left _ _
    · exact countAssigned_foldAssign_le _ _ bu pfx role

/-- Witness for C1: a concrete state with one resolvable role and no
existing assignment; the double call leaves exactly one matching row and
the second call performs no insert. -/
theorem claim_C1_witness :
    resolveRoles state0 "BU1" "admin" = [role0] ∧
    countAssigned state0 "BU1" "REP1" "R1" = 0 ∧
    (countAssigned
        (assignReportToRole env0
          (assignReportToRole env0 state0
            { reportPfx := "REP1", businessUnit := "BU1",
              roleDescription := "admin" }).state
          { reportPfx := "REP1", businessUnit := "BU1",
            roleDescription := "admin" }).state "BU1" "REP1" "R1" = 1 ∧
      (assignReportToRole env0
        (assignReportToRole env0 state0
          { reportPfx := "REP1", businessUnit := "BU1",
            roleDescription := "admin" }).state
        { reportPfx := "REP1", businessUnit := "BU1",
          roleDescription := "admin" }).trace.countP
          (fun ev => isInsertEvent ev) = 0) := by
  have h := claim_C1.1 env0 state0
    { reportPfx := "REP1", businessUnit := "BU1", roleDescription := "admin" }
    role0 [] (by decide) (by decide)
  exact ⟨by decide, by decide, h.2.1, h.2.2.1⟩

/-! ### Bulk-create loop lemmas -/

/-- Registry lookup succeeds exactly for the two configured keys. -/
lemma lookupConfig_isSome (e : Env) (k : String) :
    (lookupConfig e k).isSome = (k == "default" || k == "INTEGRACION_CW_20_DEV") := by
  simp only [lookupConfig, dbConfigs, List.lookup]
  cases h1 : k == "default" <;> cases h2 : k == "INTEGRACION_CW_20_DEV" <;> simp

/-- The inferred database key always resolves in the registry. -/
lemma lookupConfig_inferDbKey (e : Env) (q : String) :
    (lookupConfig e (inferDbKey q)).isSome = true := by
  unfold inferDbKey
  split <;> rfl

/-- Effect of one bulk-create iteration on the outcome lists and trace. -/
lemma processReportItem_spec (e : Env) (acc : BulkCreateAcc) (i : Nat)
    (it : ReportItem) :
    (processReportItem e acc i it).successful.length =
        acc.successful.length + (if itemValid it then 1 else 0) ∧
      (processReportItem e acc i it).failed.length =
        acc.failed.length + (if itemValid it then 0 else 1) ∧
      (processReportItem e acc i it).trace =
        acc.trace ++
          (if itemExecutes it then
            [Event.execSP (it.reportPfx.getD "") (paramsConfig it.additionalParams)]
          else []) ∧
      (processReportItem e acc i it).totalCreated =
        acc.totalCreated + (if itemValid it then 1 else 0) := by
  unfold processReportItem
  dsimp only
  by_cases h1 : (missingFields it).isEmpty
  · rw [if_neg (by simp [h1])]
    by_cases h2 : pyContains "@business_unit" (it.query.getD "")
    · rw [if_neg (by simp [h2])]
      have hex : itemExecutes it = true := by simp [itemExecutes, h1, h2]
      cases hlk : lookupConfig e
          (match it.databaseKey with
           | none => inferDbKey (it.query.getD "")
           | some k => k) with
      | some c =>
        have hv : itemValid it = true := by
          cases hdb : it.databaseKey with
          | none => simp [itemValid, hex, itemKeyOk, hdb]
          | some k =>
            have := lookupConfig_isSome e k
            rw [hdb] at hlk
            simp only [hlk, Option.isSome_some] at this
            simp [itemValid, hex, itemKeyOk, hdb, ← this]
        simp [hv, hex]
      | none =>
        have hv : itemValid it = false := by
          cases hdb : it.databaseKey with
          | none =>
            rw [hdb] at hlk
            have := lookupConfig_inferDbKey e (it.query.getD "")
            rw [hlk] at this
            simp at this
          | some k =>
            have := lookupConfig_isSome e k
            rw [hdb] at hlk
            simp only [hlk, Option.isSome_none] at this
            simp [itemValid, itemKeyOk, hdb, ← this]
        simp [hv, hex]
    · rw [if_pos (by simp [h2])]
      have hex : itemExecutes it = false := by simp [itemExecutes, h2]
      have hv : itemValid it = false := by simp [itemValid, hex]
      simp [hv, hex]
  · rw [if_pos (by simp [h1])]
    have hex : itemExecutes it = false := by simp [itemExecutes, h1]
    have hv : itemValid it = false := by simp [itemValid, hex]
    simp [hv, hex]

/-- Accumulated effect of the whole bulk-create loop. -/
lemma foldCreate_spec (e : Env) :
    ∀ (l : List (Nat × ReportItem)) (acc : BulkCreateAcc),
    (l.foldl (fun a p => processReportItem e a p.1 p.2) acc).successful.length =
        acc.successful.length + l.countP (fun p => itemValid p.2) ∧
      (l.foldl (fun a p => processReportItem e a p.1 p.2) acc).failed.length =
        acc.failed.length + l.countP (fun p => !itemValid p.2) ∧
      (l.foldl (fun a p => processReportItem e a p.1 p.2) acc).trace =
        acc.trace ++
          (l.filter (fun p => itemExecutes p.2)).map
            (fun p => Event.execSP (p.2.reportPfx.getD "")
              (paramsConfig p.2.additionalParams)) ∧
      (l.foldl (fun a p => processReportItem e a p.1 p.2) acc).totalCreated =
        acc.totalCreated + l.countP (fun p => itemValid p.2) := by
  intro l
  induction l with
  | nil =>
    intro acc
    simp
  | cons x xs ih =>
    intro acc
    obtain ⟨s1, f1, t1, c1⟩ := processReportItem_spec e acc x.1 x.2
    obtain ⟨s2, f2, t2, c2⟩ := ih (processReportItem e acc x.1 x.2)
    refine ⟨?_, ?_, ?_, ?_⟩
    · rw [List.foldl_cons, s2, s1, List.countP_cons]
      by_cases hv : itemValid x.2 <;> simp [hv] <;> omega
    · rw [List.foldl_cons, f2, f1, List.countP_cons]
      by_cases hv : itemValid x.2 <;> simp [hv] <;> omega
    · rw [List.foldl_cons, t2, t1, List.filter_cons]
      by_cases hx : itemExecutes x.2 <;> simp [hx]
    · rw [List.foldl_cons, c2, c1, List.countP_cons]
      by_cases hv : itemValid x.2 <;> simp [hv] <;> omega

/-- Counting over an enumeration by the item alone ignores the indices. -/
lemma enumFrom_countP {α : Type} (p : α → Bool) :
    ∀ (l : List α) (n : Nat), (l.enumFrom n).countP (fun q => p q.2) = l.countP p := by
  intro l
  induction l with
  | nil => intro n; rfl
  | cons x xs ih =>
    intro n
    simp [List.enumFrom, List.countP_cons, ih]

/-- Filtering and mapping an enumeration by the item alone ignores the
indices. -/
lemma enumFrom_filter_map {α β : Type} (p : α → Bool) (f : α → β) :
    ∀ (l : List α) (n : Nat),
    ((l.enumFrom n).filter (fun q => p q.2)).map (fun q => f q.2) =
      (l.filter p).map f := by
  intro l
  induction l with
  | nil => intro n; rfl
  | cons x xs ih =>
    intro n
    by_cases hx : p x <;> simp [List.enumFrom, List.filter_cons, hx, ih]

/-- `spPayloads` ignores non-procedure events and extracts payloads. -/
lemma spPayloads_append (t1 t2 : List Event) :
    spPayloads (t1 ++ t2) = spPayloads t1 ++ spPayloads t2 := by
  simp [spPayloads]

/-- `spPayloads` of a pure procedure-event list. -/
lemma spPayloads_map_execSP {α : Type} (f : α → String)
    (g : α → List (String × String)) :
    ∀ l : List α,
    spPayloads (l.map fun x => Event.execSP (f x) (g x)) =
      l.map fun x => (f x, g x) := by
  intro l
  induction l with
  | nil => rfl
  | cons x xs ih =>
    simp [spPayloads] at ih ⊢
    exact ih

/-- Claim C2 (confirmed).  A `create_report` call whose query lacks the
literal substring `@business_unit` returns the warning with an empty trace
(no connection, no statement) and an unchanged state; in
`bulk_create_reports` the stored procedure is invoked exactly for the items
that pass the field and placeholder validation, so an item lacking the
placeholder never reaches the database and is counted among the failures. -/
theorem claim_C2 :
    (∀ (e : Env) (s : DbState) (a : CreateReportArgs),
      pyContains "@business_unit" a.query = false →
      createReport e s a =
        { msg := "⚠️ La query debe incluir el parámetro @business_unit",
          trace := [], state := s }) ∧
    (∀ (e : Env) (s : DbState) (items : List ReportItem),
      spPayloads (bulkCreateReports e s items).trace =
          (items.filter itemExecutes).map
            (fun it => (it.reportPfx.getD "", paramsConfig it.additionalParams)) ∧
        (bulkCreateReports e s items).failed.length =
          items.countP (fun it => !itemValid it)) := by
  constructor
  · intro e s a h
    unfold createReport
    rw [h]
    simp
  · intro e s items
    unfold bulkCreateReports
    by_cases hemp : items.isEmpty = true
    · have hnil : items = [] := List.isEmpty_iff.mp hemp
      subst hnil
      simp [spPayloads]
    · rw [if_neg hemp]
      dsimp only
      obtain ⟨-, hf, ht, -⟩ := foldCreate_spec e (items.enumFrom 1)
        ⟨[], [], 0, [Event.connect (mkConnString (defaultConfig e))]⟩
      constructor
      · rw [spPayloads_append, ht, spPayloads_append]
        rw [enumFrom_filter_map (fun it => itemExecutes it)
          (fun it => Event.execSP (it.reportPfx.getD "")
            (paramsConfig it.additionalParams))]
        rw [spPayloads_map_execSP]
        simp [spPayloads]
      · rw [hf]
        rw [enumFrom_countP (fun it => !itemValid it) items 1]
        simp

/-- Witness for C2: a concrete query without the placeholder is rejected
with an empty trace. -/
theorem claim_C2_witness :
    pyContains "@business_unit" "SELECT * FROM t" = false ∧
    createReport env0 state0
        { reportPfx := "R1", descEn := "d", descEs := "d",
          query := "SELECT * FROM t" } =
      { msg := "⚠️ La query debe incluir el parámetro @business_unit",
        trace := [], state := state0 } :=
  ⟨by decide,
   claim_C2.1 env0 state0
     { reportPfx := "R1", descEn := "d", descEs := "d",
       query := "SELECT * FROM t" } (by decide)⟩

/-- The inference picks the secondary key exactly on a case-insensitive
occurrence of its name. -/
lemma inferDbKey_eq_iff (q : String) :
    inferDbKey q = "INTEGRACION_CW_20_DEV" ↔
      ∃ p l r, q.data = p ++ l ++ r ∧
        l.map Char.toUpper = "INTEGRACION_CW_20_DEV".data := by
  unfold inferDbKey
  by_cases h : pyContains "INTEGRACION_CW_20_DEV" (pyUpper q) = true
  · simp only [h, if_true]
    constructor
    · intro _
      exact (containsL_map_iff Char.toUpper "INTEGRACION_CW_20_DEV".data q.data).mp h
    · intro _
      trivial
  · rw [if_neg h]
    constructor
    · intro habs
      exact absurd habs (by decide)
    · rintro ⟨p, l, r, hd, hm⟩
      have hc : containsL "INTEGRACION_CW_20_DEV".data (q.data.map Char.toUpper) = true :=
        (containsL_map_iff Char.toUpper _ q.data).mpr ⟨p, l, r, hd, hm⟩
      exact absurd (show pyContains "INTEGRACION_CW_20_DEV" (pyUpper q) = true
        from hc) h

/-- Claim C3 (confirmed).  With `database_key` unspecified, the query is
attributed to the secondary database exactly when its text contains the
secondary database's name in any letter case (an upper-case image of some
segment equals the name), and otherwise to the default; the two spec
probes resolve to the secondary and the default key respectively; and both
`create_report`'s success message (through the `Query apunta a:` field of
`createReportMsg`) and each bulk success entry report that attribution. -/
theorem claim_C3 :
    (∀ q : String, inferDbKey q = "INTEGRACION_CW_20_DEV" ↔
      ∃ p l r, q.data = p ++ l ++ r ∧
        l.map Char.toUpper = "INTEGRACION_CW_20_DEV".data) ∧
    inferDbKey "SELECT ... FROM INTEGRACION_CW_20_DEV.dbo.X WHERE x=@business_unit" =
      "INTEGRACION_CW_20_DEV" ∧
    inferDbKey "SELECT * FROM Y WHERE x=@business_unit" = "default" ∧
    (∀ (e : Env) (s : DbState) (a : CreateReportArgs),
      a.databaseKey = none →
      pyContains "@business_unit" a.query = true →
      (createReport e s a).msg =
        createReportMsg a (jsonDumps (paramsConfig a.additionalParams))
          (dbNameOfKey e (inferDbKey a.query)) (pyStr e.devDatabase)) ∧
    (∀ (e : Env) (acc : BulkCreateAcc) (i : Nat) (it : ReportItem) (q : String),
      it.query = some q →
      it.databaseKey = none →
      itemExecutes it = true →
      (processReportItem e acc i it).successful =
        acc.successful ++
          [⟨i, it.reportPfx.getD "", dbNameOfKey e (inferDbKey q),
            pyStr e.devDatabase⟩]) := by
  refine ⟨inferDbKey_eq_iff, by decide, by decide, ?_, ?_⟩
  · intro e s a hdb hq
    unfold createReport
    rw [if_neg (by simp [hq])]
    simp only [hdb]
    by_cases h : pyContains "INTEGRACION_CW_20_DEV" (pyUpper a.query) = true
    · have hk : inferDbKey a.query = "INTEGRACION_CW_20_DEV" := by
        simp [inferDbKey, h]
      rw [hk]
      rfl
    · have hk : inferDbKey a.query = "default" := by
        simp only [inferDbKey, Bool.eq_false_iff.mpr h, Bool.false_eq_true, if_false]
      rw [hk]
      rfl
  · intro e acc i it q hq hdb hex
    rw [itemExecutes, Bool.and_eq_true] at hex
    obtain ⟨h1, h2⟩ := hex
    unfold processReportItem
    rw [if_neg (by simp [h1]), if_neg (by simp [h2])]
    simp only [hdb, hq, Option.getD_some] at h2 ⊢
    by_cases h : pyContains "INTEGRACION_CW_20_DEV" (pyUpper q) = true
    · have hk : inferDbKey q = "INTEGRACION_CW_20_DEV" := by
        simp [inferDbKey, h]
      rw [hk]
      rfl
    · have hk : inferDbKey q = "default" := by
        simp only [inferDbKey, Bool.eq_false_iff.mpr h, Bool.false_eq_true, if_false]
      rw [hk]
      rfl

/-- Witness for C3: a concrete unspecified-key call whose query names the
secondary database is attributed to it in the success message. -/
theorem claim_C3_witness :
    pyContains "@business_unit"
        "SELECT a FROM Integracion_CW_20_Dev.dbo.X WHERE x=@business_unit" = true ∧
    (createReport env0 state0
        { reportPfx := "R1", descEn := "d", descEs := "d",
          query :=
            "SELECT a FROM Integracion_CW_20_Dev.dbo.X WHERE x=@business_unit" }).msg =
      createReportMsg
        { reportPfx := "R1", descEn := "d", descEs := "d",
          query :=
            "SELECT a FROM Integracion_CW_20_Dev.dbo.X WHERE x=@business_unit" }
        (jsonDumps (paramsConfig none)) (dbNameOfKey env0 "INTEGRACION_CW_20_DEV")
        (pyStr env0.devDatabase) := by
  constructor
  · decide
  · have h := claim_C3.2.2.2.1 env0 state0
      { reportPfx := "R1", descEn := "d", descEs := "d",
        query :=
          "SELECT a FROM Integracion_CW_20_Dev.dbo.X WHERE x=@business_unit" }
      rfl (by decide)
    rw [h]
    rfl

/-- Claim C4 (confirmed).  `test_query` returns the warning string with an
empty trace (no connection) for any query lacking `@business_unit`; the
replacement really substitutes every occurrence textually; and for a query
containing the placeholder it executes exactly the textually substituted
string (no parameter binding) and, when rows come back, renders the first
five of them together with the total row count. -/
theorem claim_C4 :
    (∀ (e : Env) (s : DbState) (q bu k : String),
      pyContains "@business_unit" q = false →
      testQuery e s q bu k =
        { msg := "⚠️ La query debe incluir el parámetro @business_unit",
          trace := [], state := s }) ∧
    pyReplace "SELECT a FROM t WHERE bu=@business_unit AND x=@business_unit"
        "@business_unit" "'U1'" =
      "SELECT a FROM t WHERE bu='U1' AND x='U1'" ∧
    (∀ (e : Env) (s : DbState) (q bu k : String) (c : DbConfig),
      pyContains "@business_unit" q = true →
      lookupConfig e k = some c →
      (s.rawQuery (pyReplace q "@business_unit" ("'" ++ bu ++ "'"))).2 ≠ [] →
      testQuery e s q bu k =
          { msg := testSuccessMsg (pyStr c.database)
              (s.rawQuery (pyReplace q "@business_unit" ("'" ++ bu ++ "'"))).1
              ((s.rawQuery (pyReplace q "@business_unit" ("'" ++ bu ++ "'"))).2.take 5)
              (s.rawQuery (pyReplace q "@business_unit" ("'" ++ bu ++ "'"))).2.length,
            trace := [Event.connect (mkConnString c),
              Event.execRaw (pyReplace q "@business_unit" ("'" ++ bu ++ "'")),
              Event.close],
            state := s } ∧
        ((s.rawQuery (pyReplace q "@business_unit" ("'" ++ bu ++ "'"))).2.take 5).length ≤ 5) := by
  refine ⟨?_, by decide, ?_⟩
  · intro e s q bu k h
    unfold testQuery
    rw [if_pos (by simp [h])]
  · intro e s q bu k c hq hlk hne
    constructor
    · unfold testQuery
      rw [if_neg (by simp [hq]), hlk]
      dsimp only
      rw [if_neg (by simp [List.isEmpty_iff, hne])]
    · exact List.length_take_le 5 _

/-- Witness for C4: a concrete query with the placeholder against the
sample raw-query oracle executes the substituted text and keeps at most
five sample rows. -/
theorem claim_C4_witness :
    ((state3.rawQuery (pyReplace "SELECT a FROM t WHERE x=@business_unit"
        "@business_unit" "'U1'")).2.take 5).length ≤ 5 ∧
    (testQuery env0 state3 "SELECT a FROM t WHERE x=@business_unit" "U1"
        "default").trace =
      [Event.connect (mkConnString (defaultConfig env0)),
       Event.execRaw (pyReplace "SELECT a FROM t WHERE x=@business_unit"
         "@business_unit" "'U1'"),
       Event.close] := by
  have h := claim_C4.2.2 env0 state3 "SELECT a FROM t WHERE x=@business_unit"
    "U1" "default" (defaultConfig env0) (by decide) rfl (by decide)
  refine ⟨h.2, ?_⟩
  rw [h.1]
  decide

/-- Counterexample for C5.  The claim says the configuration error for an
unknown database key propagates uncaught and is not rendered as an
error-prefixed string; but on the concrete unknown key `"staging"`,
`get_table_structure` returns normally with exactly the ❌-prefixed error
string produced by its blanket exception handler. -/
theorem claim_C5_cex :
    (getTableStructure env0 state0 "mytable" "staging").msg =
      "❌ Error al obtener estructura: Base de datos 'staging' no configurada" ∧
    (getTableStructure env0 state0 "mytable" "staging").trace = [] ∧
    isPref "❌".data
      (getTableStructure env0 state0 "mytable" "staging").msg.data = true :=
  ⟨by decide, by decide, by decide⟩

/-- Claim C5 (corrected).  For an unknown logical database key the
connection resolver raises the configuration error immediately, before any
connection attempt; but the calling operation's blanket `except Exception`
handler catches it and returns it rendered as an error-prefixed result
string (with an empty trace), rather than letting it propagate. -/
theorem claim_C5 :
    ∀ (e : Env) (s : DbState) (tbl key : String),
    lookupConfig e key = none →
    getDbConnection e key =
        .error ("Base de datos '" ++ key ++ "' no configurada") ∧
      getTableStructure e s tbl key =
        { msg := "❌ Error al obtener estructura: " ++
            "Base de datos '" ++ key ++ "' no configurada",
          trace := [], state := s } ∧
      (∀ q bu : String, pyContains "@business_unit" q = true →
        testQuery e s q bu key =
          { msg := "❌ Error al probar query: " ++
              "Base de datos '" ++ key ++ "' no configurada",
            trace := [], state := s }) := by
  intro e s tbl key h
  refine ⟨?_, ?_, ?_⟩
  · unfold getDbConnection
    rw [h]
  · unfold getTableStructure
    rw [h]
  · intro q bu hq
    unfold testQuery
    rw [if_neg (by simp [hq]), h]

/-- Witness for C5 (amended form): the unknown key `"staging"`. -/
theorem claim_C5_witness :
    getDbConnection env0 "staging" =
        .error "Base de datos 'staging' no configurada" ∧
      (getTableStructure env0 state0 "t" "staging").msg =
        "❌ Error al obtener estructura: Base de datos 'staging' no configurada" := by
  have h := claim_C5 env0 state0 "t" "staging" rfl
  refine ⟨h.1, ?_⟩
  rw [h.2.1]
  decide

/-! ### Dictionary-update lemmas -/

/-- Replacing the value at another key leaves a binding alone. -/
lemma keyVal_map_replace (k : String) (kv : String × String)
    (hne : ¬ kv.1 = k) :
    ∀ acc : List (String × String),
    keyVal k (acc.map fun p => if p.1 == kv.1 then (p.1, kv.2) else p) =
      keyVal k acc := by
  intro acc
  induction acc with
  | nil => rfl
  | cons p ps ih =>
    simp only [List.map_cons]
    by_cases hkv : (p.1 == kv.1) = true
    · rw [if_pos hkv]
      simp only [keyVal]
      by_cases hk : (p.1 == k) = true
      · exact absurd (by rw [← eq_of_beq hkv]; exact eq_of_beq hk) hne
      · rw [if_neg hk, if_neg hk]
        exact ih
    · rw [if_neg hkv]
      simp only [keyVal]
      by_cases hk : (p.1 == k) = true
      · rw [if_pos hk, if_pos hk]
      · rw [if_neg hk, if_neg hk]
        exact ih

/-- Replacing a value never changes which keys are present. -/
lemma keyVal_isSome_map_replace (k : String) (kv : String × String) :
    ∀ acc : List (String × String),
    (keyVal k (acc.map fun p => if p.1 == kv.1 then (p.1, kv.2) else p)).isSome =
      (keyVal k acc).isSome := by
  intro acc
  induction acc with
  | nil => rfl
  | cons p ps ih =>
    simp only [List.map_cons]
    by_cases hkv : (p.1 == kv.1) = true
    · rw [if_pos hkv]
      simp only [keyVal]
      by_cases hk : (p.1 == k) = true
      · rw [if_pos hk, if_pos hk]
        rfl
      · rw [if_neg hk, if_neg hk]
        exact ih
    · rw [if_neg hkv]
      simp only [keyVal]
      by_cases hk : (p.1 == k) = true
      · rw [if_pos hk, if_pos hk]
      · rw [if_neg hk, if_neg hk]
        exact ih

/-- Appending an entry with a different key leaves a binding alone. -/
lemma keyVal_append_one_other (k : String) (kv : String × String)
    (hne : ¬ kv.1 = k) :
    ∀ acc : List (String × String),
    keyVal k (acc ++ [kv]) = keyVal k acc := by
  intro acc
  induction acc with
  | nil =>
    simp [keyVal, show (kv.1 == k) = false from beq_eq_false_iff_ne.mpr hne]
  | cons p ps ih =>
    by_cases hk : (p.1 == k) = true
    · simp [keyVal, hk]
    · simp [keyVal, hk, ih]

/-- Appending an entry preserves key presence. -/
lemma keyVal_append_one_isSome (k : String) (kv : String × String) :
    ∀ acc : List (String × String),
    (keyVal k acc).isSome = true →
    (keyVal k (acc ++ [kv])).isSome = true := by
  intro acc
  induction acc with
  | nil =>
    intro h
    simp [keyVal] at h
  | cons p ps ih =>
    intro h
    by_cases hk : (p.1 == k) = true
    · simp [keyVal, hk]
    · simp only [keyVal, hk, if_false, Bool.false_eq_true] at h
      simp [keyVal, hk, ih h]

/-- One `dict.update` step with a different key leaves a binding alone. -/
lemma keyVal_dictStep_other (k : String) (kv : String × String)
    (hne : ¬ kv.1 = k) (acc : List (String × String)) :
    keyVal k (dictStep acc kv) = keyVal k acc := by
  unfold dictStep
  split
  · exact keyVal_map_replace k kv hne acc
  · exact keyVal_append_one_other k kv hne acc

/-- One `dict.update` step never removes a present key. -/
lemma keyVal_dictStep_isSome (k : String) (kv : String × String)
    (acc : List (String × String))
    (h : (keyVal k acc).isSome = true) :
    (keyVal k (dictStep acc kv)).isSome = true := by
  unfold dictStep
  split
  · rw [keyVal_isSome_map_replace]
    exact h
  · exact keyVal_append_one_isSome k kv acc h

/-- `dict.update` with only other keys leaves a binding alone. -/
lemma foldl_dictStep_other (k : String) :
    ∀ (l acc : List (String × String)),
    l.all (fun p => !(p.1 == k)) = true →
    keyVal k (l.foldl dictStep acc) = keyVal k acc := by
  intro l
  induction l with
  | nil =>
    intro acc _
    rfl
  | cons kv l ih =>
    intro acc hall
    rw [List.all_cons, Bool.and_eq_true] at hall
    rw [List.foldl_cons, ih (dictStep acc kv) hall.2]
    exact keyVal_dictStep_other k kv (by simpa using hall.1) acc

/-- `dict.update` never removes a present key. -/
lemma foldl_dictStep_isSome (k : String) :
    ∀ (l acc : List (String × String)),
    (keyVal k acc).isSome = true →
    (keyVal k (l.foldl dictStep acc)).isSome = true := by
  intro l
  induction l with
  | nil =>
    intro acc h
    exact h
  | cons kv l ih =>
    intro acc h
    exact ih (dictStep acc kv) (keyVal_dictStep_isSome k kv acc h)

/-- The parameter map always carries the key `business_unit`. -/
lemma paramsConfig_business_isSome (ap : Option (List (String × String))) :
    (keyVal "business_unit" (paramsConfig ap)).isSome = true := by
  unfold paramsConfig
  cases ap with
  | none => rfl
  | some l =>
    dsimp only
    by_cases he : l.isEmpty = true
    · rw [if_pos he]
      rfl
    · rw [if_neg he]
      exact foldl_dictStep_isSome _ l _ rfl

/-- Without a caller-supplied `business_unit` entry, the base type stands. -/
lemma paramsConfig_business_default (l : List (String × String))
    (hall : l.all (fun p => !(p.1 == "business_unit")) = true) :
    keyVal "business_unit" (paramsConfig (some l)) = some "NVARCHAR(20)" := by
  unfold paramsConfig
  dsimp only
  by_cases he : l.isEmpty = true
  · rw [if_pos he]
    rfl
  · rw [if_neg he]
    unfold dictUpdate
    rw [foldl_dictStep_other _ l _ hall]
    rfl

/-- Counterexample for C6.  The claim says the map passed to the stored
procedure binds `business_unit` to `NVARCHAR(20)` for every caller-supplied
`additional_params`; but `dict.update` overwrites, so the concrete call
with `additional_params = \x7b"business_unit": "INT"\x7d` passes a map
binding `business_unit` to `"INT"`. -/
theorem claim_C6_cex :
    keyVal "business_unit" (paramsConfig (some [("business_unit", "INT")])) =
        some "INT" ∧
      keyVal "business_unit" (paramsConfig (some [("business_unit", "INT")])) ≠
        some "NVARCHAR(20)" ∧
      spPayloads (createReport env0 state0
          { reportPfx := "R1", descEn := "d", descEs := "d",
            query := "SELECT x WHERE b=@business_unit",
            additionalParams := some [("business_unit", "INT")] }).trace =
        [("R1", [("business_unit", "INT")])] :=
  ⟨by decide, by decide, by decide⟩

/-- Claim C6 (corrected).  The parameter-type map passed to the stored
procedure by `create_report` and by every executing `bulk_create_reports`
item always contains the key `business_unit`; it is bound to the fixed type
`NVARCHAR(20)` when `additional_params` is absent or has no
`business_unit` entry, but a caller-supplied `business_unit` entry
overwrites the fixed type (`dict.update` semantics). -/
theorem claim_C6 :
    (∀ ap, (keyVal "business_unit" (paramsConfig ap)).isSome = true) ∧
    keyVal "business_unit" (paramsConfig none) = some "NVARCHAR(20)" ∧
    (∀ l, l.all (fun p => !(p.1 == "business_unit")) = true →
      keyVal "business_unit" (paramsConfig (some l)) = some "NVARCHAR(20)") ∧
    (∀ (e : Env) (s : DbState) (a : CreateReportArgs),
      pyContains "@business_unit" a.query = true →
      spPayloads (createReport e s a).trace =
        [(a.reportPfx, paramsConfig a.additionalParams)]) ∧
    (∀ (e : Env) (acc : BulkCreateAcc) (i : Nat) (it : ReportItem),
      itemExecutes it = true →
      (processReportItem e acc i it).trace =
        acc.trace ++
          [Event.execSP (it.reportPfx.getD "")
            (paramsConfig it.additionalParams)]) := by
  refine ⟨paramsConfig_business_isSome, rfl, paramsConfig_business_default, ?_, ?_⟩
  · intro e s a hq
    unfold createReport
    rw [if_neg (by simp [hq])]
    dsimp only
    cases lookupConfig e
        (match a.databaseKey with
         | none => inferDbKey a.query
         | some k => k) with
    | some c => simp [spPayloads]
    | none => simp [spPayloads]
  · intro e acc i it hex
    obtain ⟨-, -, ht, -⟩ := processReportItem_spec e acc i it
    rw [ht, if_pos hex]

/-- Witness for C6 (amended form): with no caller-supplied `business_unit`
entry the fixed type survives, and a concrete `create_report` call passes
exactly that map to the procedure. -/
theorem claim_C6_witness :
    [("param_a", "INT")].all (fun p => !(p.1 == "business_unit")) = true ∧
    keyVal "business_unit" (paramsConfig (some [("param_a", "INT")])) =
      some "NVARCHAR(20)" ∧
    spPayloads (createReport env0 state0
        { reportPfx := "R1", descEn := "d", descEs := "d",
          query := "SELECT x WHERE b=@business_unit",
          additionalParams := some [("param_a", "INT")] }).trace =
      [("R1", paramsConfig (some [("param_a", "INT")]))] := by
  refine ⟨by decide, claim_C6.2.2.1 [("param_a", "INT")] (by decide), ?_⟩
  exact claim_C6.2.2.2.1 env0 state0
    { reportPfx := "R1", descEn := "d", descEs := "d",
      query := "SELECT x WHERE b=@business_unit",
      additionalParams := some [("param_a", "INT")] } (by decide)

/-- Claim C7 (confirmed).  `bulk_create_reports` processes every item
independently: the success, failure and procedure-invocation counts are
exactly determined by per-item validity, so a failing item (in particular
one missing the `query` field, which always fails validation) never aborts
the processing of the valid items that follow it. -/
theorem claim_C7 :
    (∀ (e : Env) (s : DbState) (items : List ReportItem),
      (bulkCreateReports e s items).successful.length = items.countP itemValid ∧
        (bulkCreateReports e s items).failed.length =
          items.countP (fun it => !itemValid it) ∧
        (bulkCreateReports e s items).totalCreated = items.countP itemValid ∧
        spPayloads (bulkCreateReports e s items).trace =
          (items.filter itemExecutes).map
            (fun it => (it.reportPfx.getD "", paramsConfig it.additionalParams))) ∧
    (∀ it : ReportItem, it.query = none → itemValid it = false) := by
  constructor
  · intro e s items
    unfold bulkCreateReports
    by_cases hemp : items.isEmpty = true
    · have hnil : items = [] := List.isEmpty_iff.mp hemp
      subst hnil
      simp [spPayloads]
    · rw [if_neg hemp]
      dsimp only
      obtain ⟨hs, hf, ht, hc⟩ := foldCreate_spec e (items.enumFrom 1)
        ⟨[], [], 0, [Event.connect (mkConnString (defaultConfig e))]⟩
      refine ⟨?_, ?_, ?_, ?_⟩
      · rw [hs, enumFrom_countP (fun it => itemValid it) items 1]
        simp
      · rw [hf, enumFrom_countP (fun it => !itemValid it) items 1]
        simp
      · rw [hc, enumFrom_countP (fun it => itemValid it) items 1]
        simp
      · rw [spPayloads_append, ht, spPayloads_append]
        rw [enumFrom_filter_map (fun it => itemExecutes it)
          (fun it => Event.execSP (it.reportPfx.getD "")
            (paramsConfig it.additionalParams))]
        rw [spPayloads_map_execSP]
        simp [spPayloads]
  · intro it hq
    have hmem : "query" ∈ missingFields it := by
      simp [missingFields, hq]
    have hne : (missingFields it).isEmpty = false := by
      rw [List.isEmpty_eq_false]
      exact List.ne_nil_of_mem hmem
    simp [itemValid, itemExecutes, hne]

/-- Witness for C7: a two-item batch whose first item lacks `query` and
whose second item is valid reports exactly one failure and one success,
and the valid item after the failure is still executed. -/
theorem claim_C7_witness :
    (bulkCreateReports env0 state0
        [{ reportPfx := some "B1" },
         { reportPfx := some "G1", descEn := some "d", descEs := some "d",
           query := some "SELECT 1 WHERE x=@business_unit" }]).successful.length = 1 ∧
    (bulkCreateReports env0 state0
        [{ reportPfx := some "B1" },
         { reportPfx := some "G1", descEn := some "d", descEs := some "d",
           query := some "SELECT 1 WHERE x=@business_unit" }]).failed.length = 1 ∧
    spPayloads (bulkCreateReports env0 state0
        [{ reportPfx := some "B1" },
         { reportPfx := some "G1", descEn := some "d", descEs := some "d",
           query := some "SELECT 1 WHERE x=@business_unit" }]).trace =
      [("G1", [("business_unit", "NVARCHAR(20)")])] ∧
    ({ reportPfx := some "B1" } : ReportItem).query = none := by
  have h := claim_C7.1 env0 state0
    [{ reportPfx := some "B1" },
     { reportPfx := some "G1", descEn := some "d", descEs := some "d",
       query := some "SELECT 1 WHERE x=@business_unit" }]
  refine ⟨h.1.trans (by decide), h.2.1.trans (by decide),
    h.2.2.2.trans (by decide), rfl⟩

/-- A positive match count yields a first matching row. -/
lemma find_of_countAssigned_pos (s : DbState) (bu pfx role : String)
    (hpos : countAssigned s bu pfx role > 0) :
    ∃ cur, s.assignedReports.find? (matchesKey bu pfx role) = some cur := by
  rw [← Option.isSome_iff_exists, List.find?_isSome]
  have hlen : 0 < (s.assignedReports.filter (matchesKey bu pfx role)).length := hpos
  obtain ⟨x, hx⟩ := List.exists_mem_of_length_pos hlen
  exact ⟨x, (List.mem_filter.mp hx).1, (List.mem_filter.mp hx).2⟩

/-- Claim C8 (confirmed).  When every optional update field is `None` and
the targeted assignment rows exist, both `update_report_assignment` and
`bulk_update_report_assignments` stop at the empty `SET`-clause check: they
return the warning string, execute no `UPDATE` statement (the trace holds
only the connect and the two read queries), and leave the state unchanged. -/
theorem claim_C8 :
    (∀ (e : Env) (s : DbState) (pfx bu role : String),
      countAssigned s bu pfx role > 0 →
      updateReportAssignment e s
          { reportPfx := pfx, businessUnit := bu, roleCode := role } =
        { msg := "⚠️ No se proporcionaron campos para actualizar",
          trace := [Event.connect (mkConnString (defaultConfig e)),
            Event.queryCountAssigned bu pfx role,
            Event.queryCurrentAssign bu pfx role],
          state := s }) ∧
    (∀ (e : Env) (s : DbState) (pfx bu : String) (codes : List String),
      countAssignedIn s bu pfx codes > 0 →
      bulkUpdateReportAssignments e s pfx bu codes none none none none none =
        { msg := "⚠️ No se proporcionaron campos para actualizar",
          trace := [Event.connect (mkConnString (defaultConfig e)),
            Event.queryCountAssignedIn bu pfx codes,
            Event.queryRolesInfoIn bu pfx codes],
          state := s }) := by
  constructor
  · intro e s pfx bu role hpos
    unfold updateReportAssignment
    rw [if_neg (by simp only [beq_iff_eq]; omega)]
    obtain ⟨cur, hcur⟩ := find_of_countAssigned_pos s bu pfx role hpos
    rw [hcur]
    rfl
  · intro e s pfx bu codes hpos
    have hcodes : ¬ codes.isEmpty = true := by
      intro h
      rw [List.isEmpty_iff.mp h] at hpos
      simp [countAssignedIn] at hpos
    unfold bulkUpdateReportAssignments
    rw [if_neg hcodes, if_neg (by simp only [beq_iff_eq]; omega)]
    rfl

/-- Witness for C8: the sample state holding one assignment of `REP1` to
role `R1` in unit `BU1`; both empty-field updates return the warning and
leave the assignment table unchanged. -/
theorem claim_C8_witness :
    countAssigned state1 "BU1" "REP1" "R1" > 0 ∧
    (updateReportAssignment env0 state1
        { reportPfx := "REP1", businessUnit := "BU1", roleCode := "R1" }).msg =
      "⚠️ No se proporcionaron campos para actualizar" ∧
    (updateReportAssignment env0 state1
        { reportPfx := "REP1", businessUnit := "BU1",
          roleCode := "R1" }).state.assignedReports = [row0] ∧
    (bulkUpdateReportAssignments env0 state1 "REP1" "BU1" ["R1"]
        none none none none none).msg =
      "⚠️ No se proporcionaron campos para actualizar" := by
  have h1 := claim_C8.1 env0 state1 "REP1" "BU1" "R1" (by decide)
  have h2 := claim_C8.2 env0 state1 "REP1" "BU1" ["R1"] (by decide)
  refine ⟨by decide, ?_, ?_, ?_⟩
  · rw [h1]
  · rw [h1]
    rfl
  · rw [h2]

/-- Claim C9 (confirmed).  For each of the two registry keys,
`get_db_connection` hands `pyodbc.connect` the connection string assembled
from exactly that entry's server, database, username, password and driver
(the environment-derived fields for `default`, the fixed database name for
the secondary entry); for every other key it raises the configuration
`ValueError` before any connection attempt. -/
theorem claim_C9 :
    (∀ e : Env, getDbConnection e "default" =
      .ok (mkConnString
        ⟨e.devServer, e.devDatabase, e.devUsername, e.devPassword,
         "\x7bODBC Driver 17 for SQL Server\x7d"⟩)) ∧
    (∀ e : Env, getDbConnection e "INTEGRACION_CW_20_DEV" =
      .ok (mkConnString
        ⟨e.devServer, some "INTEGRACION_CW_20_DEV", e.devUsername, e.devPassword,
         "\x7bODBC Driver 17 for SQL Server\x7d"⟩)) ∧
    (∀ (e : Env) (k : String), k ≠ "default" → k ≠ "INTEGRACION_CW_20_DEV" →
      getDbConnection e k =
        .error ("Base de datos '" ++ k ++ "' no configurada")) := by
  refine ⟨fun e => rfl, fun e => rfl, ?_⟩
  intro e k h1 h2
  unfold getDbConnection lookupConfig dbConfigs
  simp [List.lookup, beq_eq_false_iff_ne.mpr h1, beq_eq_false_iff_ne.mpr h2]

/-- Witness for C9: the sample environment's default connection string and
a concrete unknown key. -/
theorem claim_C9_witness :
    getDbConnection env0 "default" =
        .ok (mkConnString
          ⟨some "srv01", some "ECOSYSTEM_DEV", some "svc", some "pw",
           "\x7bODBC Driver 17 for SQL Server\x7d"⟩) ∧
      getDbConnection env0 "prod" =
        .error "Base de datos 'prod' no configurada" := by
  refine ⟨claim_C9.1 env0, ?_⟩
  have h := claim_C9.2.2 env0 "prod" (by decide) (by decide)
  rw [h]
  rfl

/-- Claim C10 (confirmed).  On the non-exception early-return paths the
connection stays open (the trace has a connect event but no close event):
`assign_report_to_role` on both the role-not-found path and the
already-assigned skip path, and `get_table_structure` on the
table-not-found path.  Only the full-success paths of these operations
close the connection. -/
theorem claim_C10 :
    (∀ (e : Env) (s : DbState) (a : AssignArgs),
      resolveRoles s a.businessUnit a.roleDescription = [] →
      Event.close ∉ (assignReportToRole e s a).trace ∧
        Event.connect (mkConnString (defaultConfig e)) ∈
          (assignReportToRole e s a).trace) ∧
    (∀ (e : Env) (s : DbState) (a : AssignArgs) (r0 : RoleRow) (rs : List RoleRow),
      resolveRoles s a.businessUnit a.roleDescription = r0 :: rs →
      countAssigned s a.businessUnit a.reportPfx r0.code > 0 →
      Event.close ∉ (assignReportToRole e s a).trace ∧
        Event.connect (mkConnString (defaultConfig e)) ∈
          (assignReportToRole e s a).trace) ∧
    (∀ (e : Env) (s : DbState) (tbl key : String) (c : DbConfig),
      lookupConfig e key = some c →
      s.infoColumns key tbl = [] →
      Event.close ∉ (getTableStructure e s tbl key).trace ∧
        Event.connect (mkConnString c) ∈ (getTableStructure e s tbl key).trace) ∧
    (∀ (e : Env) (s : DbState) (a : AssignArgs) (r0 : RoleRow) (rs : List RoleRow),
      resolveRoles s a.businessUnit a.roleDescription = r0 :: rs →
      countAssigned s a.businessUnit a.reportPfx r0.code = 0 →
      Event.close ∈ (assignReportToRole e s a).trace) ∧
    (∀ (e : Env) (s : DbState) (tbl key : String) (c : DbConfig),
      lookupConfig e key = some c →
      s.infoColumns key tbl ≠ [] →
      Event.close ∈ (getTableStructure e s tbl key).trace) := by
  refine ⟨?_, ?_, ?_, ?_, ?_⟩
  · intro e s a h
    simp [assignReportToRole, h]
  · intro e s a r0 rs h hpos
    rw [assign_skip e s a r0 rs h hpos]
    simp
  · intro e s tbl key c hlk hcols
    unfold getTableStructure
    rw [hlk]
    dsimp only
    rw [if_pos (by simp [hcols])]
    simp
  · intro e s a r0 rs h hz
    simp [assignReportToRole, h, hz]
  · intro e s tbl key c hlk hcols
    unfold getTableStructure
    rw [hlk]
    dsimp only
    rw [if_neg (by simp [List.isEmpty_iff, hcols])]
    simp

/-- Witness for C10: concrete role-not-found, table-not-found and
full-success calls showing the open/closed connection in each trace. -/
theorem claim_C10_witness :
    Event.close ∉ (assignReportToRole env0 state2
        { reportPfx := "R", businessUnit := "BU1",
          roleDescription := "adm" }).trace ∧
      Event.close ∉ (getTableStructure env0 state0 "t" "default").trace ∧
      Event.connect (mkConnString (defaultConfig env0)) ∈
        (getTableStructure env0 state0 "t" "default").trace ∧
      Event.close ∈ (getTableStructure env0 state2 "t" "default").trace := by
  have h1 := claim_C10.1 env0 state2
    { reportPfx := "R", businessUnit := "BU1", roleDescription := "adm" } rfl
  have h3 := claim_C10.2.2.1 env0 state0 "t" "default" (defaultConfig env0) rfl rfl
  have h5 := claim_C10.2.2.2.2 env0 state2 "t" "default" (defaultConfig env0) rfl
    (by decide)
  exact ⟨h1.1, h3.1, h3.2, h5⟩

end EchoSpec
